import Mathlib

/-!
Shallow embedding of the CustomBadges badge record store (src/index.tsx,
second revision: `loadUserBadges`, `saveUserBadges`, `addProfileBadge`).

Modelling conventions:
* JS strings are `String`; a JS string is truthy iff it is non-empty.
* The persisted DataStore namespace is modelled by two partial maps:
  `global` is the value stored under the single key
  "CustomBadges_GlobalStorage" (a mapping from userId to badge list), and
  `legacy` maps a userId to the value stored under the per-user key
  "customBadges_<userId>".  `DataStore.get` on an absent key yields
  `none` (JS `undefined`).
* The in-memory cache is the pair of maps `badgeCache` / `cacheTimestamps`.
* Time is a `Nat` millisecond timestamp (`Date.now()`).  JS computes
  `Date.now() - cacheTime` with real subtraction; with the truncated `Nat`
  subtraction a clock that went backwards gives `0 < CACHE_DURATION`,
  i.e. "fresh", exactly as the negative JS difference does, so the two
  agree on the freshness test.
* The JS test `cached && cacheTime && (Date.now() - cacheTime) < CACHE_DURATION`
  is truthiness on `cached` (an array, truthy even when empty, so this is
  presence) and on `cacheTime` (a number, falsy when `0`), which the model
  reproduces literally.
* I/O failures (a rejected DataStore promise) are modelled by a `Faults`
  record saying which of the four DataStore operations performed by a call
  rejects; a failing `set`/`del` leaves the store unchanged (each single
  operation is atomic).
-/

namespace CustomBadges

/-- A badge record as stored by the plugin: `{ name, emoji, url }`. -/
structure Badge where
  name : String
  emoji : String
  url : String
deriving DecidableEq, Repr

/-- A partial map from userId to badge list (a JS object used as a map). -/
def BadgeMap : Type := String → Option (List Badge)

/-- The empty JS object `{}`. -/
def BadgeMap.empty : BadgeMap := fun _ => none

/-- `m[k] = v` on a JS object. -/
def setKey (m : BadgeMap) (k : String) (v : List Badge) : BadgeMap :=
  fun k' => if k' = k then some v else m k'

/-- Deleting key `k` from a JS object (`DataStore.del`). -/
def delKey (m : BadgeMap) (k : String) : BadgeMap :=
  fun k' => if k' = k then none else m k'

/-- The persisted DataStore state: the consolidated blob under
"CustomBadges_GlobalStorage" and the legacy per-user keys
"customBadges_<userId>". -/
structure DataStore where
  global : BadgeMap
  legacy : BadgeMap

/-- The in-memory cache: `badgeCache` and `cacheTimestamps`. -/
structure Cache where
  entries : BadgeMap
  stamps : String → Option Nat

/-- The empty cache (fresh process). -/
def Cache.empty : Cache := ⟨BadgeMap.empty, fun _ => none⟩

/-- `badgeCache.set(id, b); cacheTimestamps.set(id, now)`. -/
def Cache.put (c : Cache) (id : String) (b : List Badge) (now : Nat) : Cache :=
  { entries := setKey c.entries id b
    stamps := fun k => if k = id then some now else c.stamps k }

/-- `const CACHE_DURATION = 5 * 60 * 1000`. -/
def CACHE_DURATION : Nat := 5 * 60 * 1000

/-- The cache test of `loadUserBadges`:
`cached && cacheTime && (Date.now() - cacheTime) < CACHE_DURATION`.
`cached` is truthy iff present (an array, even `[]`, is truthy); `cacheTime`
is truthy iff present and non-zero. -/
def cacheFresh (c : Cache) (id : String) (now : Nat) : Bool :=
  match c.entries id, c.stamps id with
  | some _, some t => t != 0 && decide (now - t < CACHE_DURATION)
  | _, _ => false

/-- Which DataStore operations of one `loadUserBadges`/`saveUserBadges` call
reject.  The four operations a single call can perform are:
`get("CustomBadges_GlobalStorage")`, `get("customBadges_<id>")`,
`set("CustomBadges_GlobalStorage", …)`, `del("customBadges_<id>")`. -/
structure Faults where
  getGlobalFails : Bool
  getLegacyFails : Bool
  setGlobalFails : Bool
  delLegacyFails : Bool
deriving DecidableEq, Repr

/-- All four operations succeed. -/
def noFaults : Faults := ⟨false, false, false, false⟩

/-- Result of one `loadUserBadges` call: the value returned to the caller,
the DataStore and cache afterwards, and how many `DataStore.get` reads the
call issued (counting a read whose promise rejects). -/
structure LoadResult where
  badges : List Badge
  store : DataStore
  cache : Cache
  storeReads : Nat

/-- `loadUserBadges(userId)` (src/index.tsx lines 276-337).
Cache check first; then the try block: read the global blob, fall back to
migration from the legacy key when the user's entry is empty or absent
(`globalBadges[userId] || []` then `userBadges.length === 0`), write the
merged blob back and delete the legacy key; cache and return.  Any rejected
DataStore operation jumps to the catch block, which caches `[]` stamped now
and returns `[]`. -/
def loadUserBadges (f : Faults) (ds : DataStore) (c : Cache) (userId : String)
    (now : Nat) : LoadResult :=
  if cacheFresh c userId now then
    { badges := (c.entries userId).getD [], store := ds, cache := c, storeReads := 0 }
  else if f.getGlobalFails then
    { badges := [], store := ds, cache := c.put userId [] now, storeReads := 1 }
  else
    let userB := (ds.global userId).getD []
    if userB.isEmpty then
      if f.getLegacyFails then
        { badges := [], store := ds, cache := c.put userId [] now, storeReads := 2 }
      else
        match ds.legacy userId with
        | some old =>
          if old.isEmpty then
            { badges := [], store := ds, cache := c.put userId [] now, storeReads := 2 }
          else if f.setGlobalFails then
            { badges := [], store := ds, cache := c.put userId [] now, storeReads := 2 }
          else
            let ds1 : DataStore := { ds with global := setKey ds.global userId old }
            if f.delLegacyFails then
              { badges := [], store := ds1, cache := c.put userId [] now, storeReads := 2 }
            else
              { badges := old
                store := { ds1 with legacy := delKey ds1.legacy userId }
                cache := c.put userId old now
                storeReads := 2 }
        | none =>
          { badges := [], store := ds, cache := c.put userId [] now, storeReads := 2 }
    else
      { badges := userB, store := ds, cache := c.put userId userB now, storeReads := 1 }

/-- `saveUserBadges(userId, badges)` (src/index.tsx lines 340-363): read the
global blob, set `globalBadges[userId] = badges`, write it back, then update
the cache.  A rejected read or write is re-thrown to the caller (`none`);
the store and cache are then unchanged. -/
def saveUserBadges (f : Faults) (ds : DataStore) (c : Cache) (userId : String)
    (badges : List Badge) (now : Nat) : Option (DataStore × Cache) :=
  if f.getGlobalFails then none
  else if f.setGlobalFails then none
  else some ({ ds with global := setKey ds.global userId badges },
             c.put userId badges now)

/-- The store-level effect of the migration section of `loadUserBadges`
(src/index.tsx lines 289-315) when every DataStore operation succeeds:
the DataStore afterwards and the badge list the surrounding load will cache
and return. -/
def migrate (ds : DataStore) (userId : String) : DataStore × List Badge :=
  let userB := (ds.global userId).getD []
  if userB.isEmpty then
    match ds.legacy userId with
    | some old =>
      if old.isEmpty then (ds, [])
      else ({ global := setKey ds.global userId old
              legacy := delKey ds.legacy userId }, old)
    | none => (ds, [])
  else (ds, userB)

/-- On a cache miss with no faults, `loadUserBadges` performs exactly the
`migrate` store transformation and caches/returns its badge list. -/
theorem loadUserBadges_noFaults_migrate (ds : DataStore) (c : Cache)
    (userId : String) (now : Nat) (h : cacheFresh c userId now = false) :
    loadUserBadges noFaults ds c userId now =
      { badges := (migrate ds userId).2
        store := (migrate ds userId).1
        cache := c.put userId (migrate ds userId).2 now
        storeReads := if ((ds.global userId).getD []).isEmpty then 2 else 1 } := by
  unfold loadUserBadges migrate noFaults
  simp only [h, Bool.false_eq_true, if_false]
  by_cases hg : ((ds.global userId).getD []).isEmpty
  · simp only [hg, if_true]
    cases hl : ds.legacy userId with
    | none => simp
    | some old =>
      by_cases ho : old.isEmpty
      · simp [ho]
      · simp [ho]
  · simp [hg]

/-- `emojiToImageUrl` (src/index.tsx lines 243-260): strip variation
selectors (U+FE00-U+FE0F) and zero-width joiners (U+200D), turn each
remaining code point into lowercase hex (a code point of 0 is dropped by
the `filter(Boolean)`), join with "-", and build the Twemoji CDN URL.
Empty input returns "".  JS spread (`[...s]`) iterates code points, as
`String.toList` does. -/
def emojiToImageUrl (emoji : String) : String :=
  if emoji = "" then ""
  else
    let cleanEmoji := emoji.toList.filter fun ch =>
      !(0xFE00 ≤ ch.toNat && ch.toNat ≤ 0xFE0F) && ch.toNat != 0x200D
    let codePoints := cleanEmoji.filterMap fun ch =>
      if ch.toNat = 0 then none else some (String.mk (Nat.toDigits 16 ch.toNat))
    let joined := String.intercalate "-" codePoints
    "https://cdn.jsdelivr.net/gh/twitter/twemoji@14.0.2/assets/72x72/" ++ joined ++ ".png"

/-- A badge descriptor handed to the badge-display host: `{ description,
image, onClick }`.  The `onClick` handler is a side-effecting closure the
host invokes on click; it carries no data the display contract depends on,
so it is not part of the model. -/
structure BadgeDescriptor where
  description : String
  image : String
deriving DecidableEq, Repr

/-- The displayability filter of `getBadges`
(`badge.name && (badge.emoji || badge.url)`): non-empty name and at least
one of emoji or url non-empty. -/
def isDisplayable (b : Badge) : Bool :=
  b.name != "" && (b.emoji != "" || b.url != "")

/-- The descriptor `getBadges` builds for one displayable badge:
`image: badge.url || emojiToImageUrl(badge.emoji)` — the image URL wins
over the emoji-derived URL when both are set. -/
def displayBadge (b : Badge) : BadgeDescriptor :=
  { description := b.name
    image := if b.url != "" then b.url else emojiToImageUrl b.emoji }

/-- `getBadges` of the `addProfileBadge` registration (src/index.tsx lines
639-654): for any user other than the current one return `[]`; otherwise
filter the module-level `userBadges` list to displayable badges and map
each to its descriptor. -/
def getBadges (userBadges : List Badge) (userId currentUserId : String) :
    List BadgeDescriptor :=
  if userId ≠ currentUserId then []
  else (userBadges.filter isDisplayable).map displayBadge

/-- `shouldShow` of the `addProfileBadge` registration (src/index.tsx lines
634-638): show only for the current user. -/
def shouldShow (userId currentUserId : String) : Bool :=
  userId == currentUserId

/-!
Interleaving model for two concurrent `saveUserBadges` calls, A and B.
One save has two suspension points: the `await DataStore.get` that reads
the consolidated blob and the `await DataStore.set` that writes the merged
blob back.  A schedule is a sequence of these four atomic events; program
order requires each task's read before its write.  A write applies the
task's `globalBadges[userId] = badges` mutation to the snapshot its own
read returned and stores that whole object, exactly as the code writes
back the object it read. -/

/-- One atomic event of the two racing saves. -/
inductive SaveStep
  | readA
  | writeA
  | readB
  | writeB
deriving DecidableEq, Repr

/-- State of the race: the persisted consolidated blob and each task's
read snapshot (absent until its read has run). -/
structure RaceState where
  global : BadgeMap
  snapA : Option BadgeMap
  snapB : Option BadgeMap

/-- The race's initial state over a given persisted blob. -/
def RaceState.init (g : BadgeMap) : RaceState := ⟨g, none, none⟩

/-- Execute one atomic event.  A write before the task's own read violates
program order and is a no-op (such schedules are never considered). -/
def raceStep (idA idB : String) (rA rB : List Badge) (s : RaceState) :
    SaveStep → RaceState
  | .readA => { s with snapA := some s.global }
  | .readB => { s with snapB := some s.global }
  | .writeA =>
    match s.snapA with
    | some m => { s with global := setKey m idA rA }
    | none => s
  | .writeB =>
    match s.snapB with
    | some m => { s with global := setKey m idB rB }
    | none => s

/-- Execute a schedule of atomic events. -/
def runRace (idA idB : String) (rA rB : List Badge) (s : RaceState) :
    List SaveStep → RaceState
  | [] => s
  | st :: rest => runRace idA idB rA rB (raceStep idA idB rA rB s st) rest

/-! Basic lemmas about the map and cache operations. -/

theorem setKey_same (m : BadgeMap) (k : String) (v : List Badge) :
    setKey m k v k = some v := by
  simp [setKey]

theorem setKey_other (m : BadgeMap) (k k' : String) (v : List Badge)
    (h : k' ≠ k) : setKey m k v k' = m k' := by
  simp [setKey, h]

theorem delKey_same (m : BadgeMap) (k : String) : delKey m k k = none := by
  simp [delKey]

theorem delKey_other (m : BadgeMap) (k k' : String) (h : k' ≠ k) :
    delKey m k k' = m k' := by
  simp [delKey, h]

theorem put_entries_same (c : Cache) (id : String) (b : List Badge) (now : Nat) :
    (c.put id b now).entries id = some b := by
  simp [Cache.put, setKey]

theorem put_stamps_same (c : Cache) (id : String) (b : List Badge) (now : Nat) :
    (c.put id b now).stamps id = some now := by
  simp [Cache.put]

/-- Freshness of a just-filled cache entry reduces to the stamp test. -/
theorem cacheFresh_put (c : Cache) (id : String) (b : List Badge) (now t : Nat) :
    cacheFresh (c.put id b now) id t =
      (now != 0 && decide (t - now < CACHE_DURATION)) := by
  simp [cacheFresh, put_entries_same, put_stamps_same]

/-- A fresh cache hit returns the cached entry with no store access. -/
theorem loadUserBadges_fresh (f : Faults) (ds : DataStore) (c : Cache)
    (id : String) (now : Nat) (h : cacheFresh c id now = true) :
    loadUserBadges f ds c id now =
      { badges := (c.entries id).getD [], store := ds, cache := c, storeReads := 0 } := by
  unfold loadUserBadges
  simp [h]

/-- Every `loadUserBadges` call that misses the fresh-cache test fills the
cache for the requested id with exactly the badges it returns, stamped with
the call's time, and issues at least one store read. -/
theorem loadUserBadges_miss_fills_cache (f : Faults) (ds : DataStore)
    (c : Cache) (id : String) (now : Nat) (h : cacheFresh c id now = false) :
    (loadUserBadges f ds c id now).cache.entries id
        = some (loadUserBadges f ds c id now).badges ∧
      (loadUserBadges f ds c id now).cache.stamps id = some now ∧
      0 < (loadUserBadges f ds c id now).storeReads := by
  unfold loadUserBadges
  simp only [h, Bool.false_eq_true, if_false]
  by_cases h1 : f.getGlobalFails
  · simp [h1, put_entries_same, put_stamps_same]
  · simp only [h1, Bool.false_eq_true, if_false]
    by_cases hg : ((ds.global id).getD []).isEmpty
    · simp only [hg, if_true]
      by_cases h2 : f.getLegacyFails
      · simp [h2, put_entries_same, put_stamps_same]
      · simp only [h2, Bool.false_eq_true, if_false]
        cases hl : ds.legacy id with
        | none => simp [put_entries_same, put_stamps_same]
        | some old =>
          by_cases ho : old.isEmpty
          · simp [ho, put_entries_same, put_stamps_same]
          · by_cases h3 : f.setGlobalFails
            · simp [ho, h3, put_entries_same, put_stamps_same]
            · by_cases h4 : f.delLegacyFails
              · simp [ho, h3, h4, put_entries_same, put_stamps_same]
              · simp [ho, h3, h4, put_entries_same, put_stamps_same]
    · simp [hg, put_entries_same, put_stamps_same]

/-- Fixture badge used by concrete witnesses. -/
def gamingBadge : Badge := ⟨"Gaming", "🎮", ""⟩

/-- Fixture store whose maps are all empty. -/
def emptyStore : DataStore := ⟨BadgeMap.empty, BadgeMap.empty⟩

/-- C1: after a successful `saveUserBadges(id, R)` at time `now`, a
`loadUserBadges(id)` at any time `t` with `t - now < CACHE_DURATION`
returns exactly `R` (same list, same order) and performs no DataStore
read, whatever the store would do (`fl` arbitrary).  `0 < now` says the
save's `Date.now()` timestamp is positive, which every real clock value
is. -/
theorem save_then_load_returns_saved (f fl : Faults) (ds : DataStore)
    (c : Cache) (id : String) (R : List Badge) (now t : Nat)
    (ds' : DataStore) (c' : Cache)
    (hsave : saveUserBadges f ds c id R now = some (ds', c'))
    (hnow : 0 < now) (hfresh : t - now < CACHE_DURATION) :
    (loadUserBadges fl ds' c' id t).badges = R ∧
      (loadUserBadges fl ds' c' id t).storeReads = 0 := by
  unfold saveUserBadges at hsave
  by_cases h1 : f.getGlobalFails
  · simp [h1] at hsave
  · by_cases h2 : f.setGlobalFails
    · simp [h1, h2] at hsave
    · simp only [h1, h2, Bool.false_eq_true, if_false, Option.some.injEq,
        Prod.mk.injEq] at hsave
      obtain ⟨hds, hc⟩ := hsave
      have hcf : cacheFresh c' id t = true := by
        rw [← hc, cacheFresh_put]
        simp [Nat.pos_iff_ne_zero.mp hnow, hfresh]
      rw [loadUserBadges_fresh fl ds' c' id t hcf]
      rw [← hc]
      simp [put_entries_same]

/-- Witness for C1 at a concrete input: save the fixture badge for "42" at
time 1, load at time 2. -/
theorem save_then_load_returns_saved_witness :
    (loadUserBadges noFaults
        ⟨setKey BadgeMap.empty "42" [gamingBadge], BadgeMap.empty⟩
        (Cache.empty.put "42" [gamingBadge] 1) "42" 2).badges = [gamingBadge] ∧
      (loadUserBadges noFaults
        ⟨setKey BadgeMap.empty "42" [gamingBadge], BadgeMap.empty⟩
        (Cache.empty.put "42" [gamingBadge] 1) "42" 2).storeReads = 0 :=
  save_then_load_returns_saved noFaults noFaults emptyStore Cache.empty
    "42" [gamingBadge] 1 2
    ⟨setKey BadgeMap.empty "42" [gamingBadge], BadgeMap.empty⟩
    (Cache.empty.put "42" [gamingBadge] 1) rfl (by decide) (by decide)

/-- Freshness computed from known cache contents. -/
theorem cacheFresh_of_entries_stamps (c : Cache) (id : String) (now t : Nat)
    (b : List Badge) (he : c.entries id = some b) (hs : c.stamps id = some t) :
    cacheFresh c id now = (t != 0 && decide (now - t < CACHE_DURATION)) := by
  unfold cacheFresh
  rw [he, hs]

/-- C7: a `loadUserBadges(id)` at `t0` that misses the cache fills it; a
second load at `t0 + CACHE_DURATION - ε` (with `0 < ε ≤ CACHE_DURATION`)
issues no DataStore read and returns the cached badges, while a load at
`t0 + CACHE_DURATION + ε` issues a DataStore read.  `0 < t0` says the
`Date.now()` stamp is positive. -/
theorem load_ttl_boundary (f f1 f2 : Faults) (ds : DataStore) (c : Cache)
    (id : String) (t0 ε : Nat) (hmiss : cacheFresh c id t0 = false)
    (ht0 : 0 < t0) (hε : 0 < ε) (hεD : ε ≤ CACHE_DURATION) :
    (loadUserBadges f1 (loadUserBadges f ds c id t0).store
        (loadUserBadges f ds c id t0).cache id
        (t0 + CACHE_DURATION - ε)).storeReads = 0 ∧
      (loadUserBadges f1 (loadUserBadges f ds c id t0).store
        (loadUserBadges f ds c id t0).cache id
        (t0 + CACHE_DURATION - ε)).badges = (loadUserBadges f ds c id t0).badges ∧
      0 < (loadUserBadges f2 (loadUserBadges f ds c id t0).store
        (loadUserBadges f ds c id t0).cache id
        (t0 + CACHE_DURATION + ε)).storeReads := by
  obtain ⟨he, hs, _⟩ := loadUserBadges_miss_fills_cache f ds c id t0 hmiss
  have hf1 : cacheFresh (loadUserBadges f ds c id t0).cache id
      (t0 + CACHE_DURATION - ε) = true := by
    rw [cacheFresh_of_entries_stamps _ _ _ _ _ he hs]
    have h1 : t0 + CACHE_DURATION - ε - t0 < CACHE_DURATION := by omega
    simp [Nat.pos_iff_ne_zero.mp ht0, h1]
  have hf2 : cacheFresh (loadUserBadges f ds c id t0).cache id
      (t0 + CACHE_DURATION + ε) = false := by
    rw [cacheFresh_of_entries_stamps _ _ _ _ _ he hs]
    have h2 : ¬ (t0 + CACHE_DURATION + ε - t0 < CACHE_DURATION) := by omega
    simp [h2]
  refine ⟨?_, ?_, ?_⟩
  · rw [loadUserBadges_fresh _ _ _ _ _ hf1]
  · rw [loadUserBadges_fresh _ _ _ _ _ hf1]
    simp [he]
  · exact (loadUserBadges_miss_fills_cache f2 _ _ id _ hf2).2.2

/-- Witness for C7: fill at time 1 from the store holding the fixture
badge for "42", re-load just inside and just outside the TTL window. -/
theorem load_ttl_boundary_witness :
    (loadUserBadges noFaults
        (loadUserBadges noFaults
          ⟨setKey BadgeMap.empty "42" [gamingBadge], BadgeMap.empty⟩
          Cache.empty "42" 1).store
        (loadUserBadges noFaults
          ⟨setKey BadgeMap.empty "42" [gamingBadge], BadgeMap.empty⟩
          Cache.empty "42" 1).cache "42"
        (1 + CACHE_DURATION - 1)).storeReads = 0 ∧
      (loadUserBadges noFaults
        (loadUserBadges noFaults
          ⟨setKey BadgeMap.empty "42" [gamingBadge], BadgeMap.empty⟩
          Cache.empty "42" 1).store
        (loadUserBadges noFaults
          ⟨setKey BadgeMap.empty "42" [gamingBadge], BadgeMap.empty⟩
          Cache.empty "42" 1).cache "42"
        (1 + CACHE_DURATION - 1)).badges =
        (loadUserBadges noFaults
          ⟨setKey BadgeMap.empty "42" [gamingBadge], BadgeMap.empty⟩
          Cache.empty "42" 1).badges ∧
      0 < (loadUserBadges noFaults
        (loadUserBadges noFaults
          ⟨setKey BadgeMap.empty "42" [gamingBadge], BadgeMap.empty⟩
          Cache.empty "42" 1).store
        (loadUserBadges noFaults
          ⟨setKey BadgeMap.empty "42" [gamingBadge], BadgeMap.empty⟩
          Cache.empty "42" 1).cache "42"
        (1 + CACHE_DURATION + 1)).storeReads :=
  load_ttl_boundary noFaults noFaults noFaults
    ⟨setKey BadgeMap.empty "42" [gamingBadge], BadgeMap.empty⟩
    Cache.empty "42" 1 1 (by decide) (by decide) (by decide) (by decide)

/-- C9: when the read of the consolidated blob during `loadUserBadges(id)`
rejects, the call returns `[]` and caches `([], now)`; any later load
within the TTL then returns `[]` with no DataStore read, whatever store
state `ds2` (e.g. a recovered store holding badges for `id`) and fault
behaviour `f2` hold at that time. -/
theorem load_failure_negative_caching (f1 f2 : Faults) (ds ds2 : DataStore)
    (c : Cache) (id : String) (t1 t2 : Nat)
    (hfail : f1.getGlobalFails = true) (hmiss : cacheFresh c id t1 = false)
    (ht1 : 0 < t1) (hfresh : t2 - t1 < CACHE_DURATION) :
    (loadUserBadges f1 ds c id t1).badges = [] ∧
      (loadUserBadges f1 ds c id t1).cache.entries id = some [] ∧
      (loadUserBadges f1 ds c id t1).cache.stamps id = some t1 ∧
      (loadUserBadges f2 ds2 (loadUserBadges f1 ds c id t1).cache id t2).badges = [] ∧
      (loadUserBadges f2 ds2 (loadUserBadges f1 ds c id t1).cache id t2).storeReads = 0 := by
  have hload : loadUserBadges f1 ds c id t1 =
      { badges := [], store := ds, cache := c.put id [] t1, storeReads := 1 } := by
    unfold loadUserBadges
    simp [hmiss, hfail]
  have hcf : cacheFresh (loadUserBadges f1 ds c id t1).cache id t2 = true := by
    rw [hload]
    rw [cacheFresh_put]
    simp [Nat.pos_iff_ne_zero.mp ht1, hfresh]
  refine ⟨?_, ?_, ?_, ?_, ?_⟩
  · rw [hload]
  · rw [hload]; exact put_entries_same c id [] t1
  · rw [hload]; exact put_stamps_same c id [] t1
  · rw [loadUserBadges_fresh _ _ _ _ _ hcf, hload]
    simp [put_entries_same]
  · rw [loadUserBadges_fresh _ _ _ _ _ hcf]

/-- Faults record where only the read of the consolidated blob rejects. -/
def getGlobalFault : Faults := ⟨true, false, false, false⟩

/-- Witness for C9: the first read fails at time 1 with the store actually
holding the fixture badge; the load at time 2 against the recovered store
still serves `[]` from the cache. -/
theorem load_failure_negative_caching_witness :
    (loadUserBadges getGlobalFault
        ⟨setKey BadgeMap.empty "42" [gamingBadge], BadgeMap.empty⟩
        Cache.empty "42" 1).badges = [] ∧
      (loadUserBadges getGlobalFault
        ⟨setKey BadgeMap.empty "42" [gamingBadge], BadgeMap.empty⟩
        Cache.empty "42" 1).cache.entries "42" = some [] ∧
      (loadUserBadges getGlobalFault
        ⟨setKey BadgeMap.empty "42" [gamingBadge], BadgeMap.empty⟩
        Cache.empty "42" 1).cache.stamps "42" = some 1 ∧
      (loadUserBadges noFaults
        ⟨setKey BadgeMap.empty "42" [gamingBadge], BadgeMap.empty⟩
        (loadUserBadges getGlobalFault
          ⟨setKey BadgeMap.empty "42" [gamingBadge], BadgeMap.empty⟩
          Cache.empty "42" 1).cache "42" 2).badges = [] ∧
      (loadUserBadges noFaults
        ⟨setKey BadgeMap.empty "42" [gamingBadge], BadgeMap.empty⟩
        (loadUserBadges getGlobalFault
          ⟨setKey BadgeMap.empty "42" [gamingBadge], BadgeMap.empty⟩
          Cache.empty "42" 1).cache "42" 2).storeReads = 0 :=
  load_failure_negative_caching getGlobalFault noFaults
    ⟨setKey BadgeMap.empty "42" [gamingBadge], BadgeMap.empty⟩
    ⟨setKey BadgeMap.empty "42" [gamingBadge], BadgeMap.empty⟩
    Cache.empty "42" 1 2 rfl (by decide) (by decide) (by decide)

/-- Fixture cache holding a stale non-empty entry for "42": filled at time
1, consulted at time `CACHE_DURATION + 2`, so `now - 1 ≥ CACHE_DURATION`. -/
def staleCache : Cache := Cache.empty.put "42" [gamingBadge] 1

/-- C2 counterexample: a stale cache entry `[gamingBadge]` for "42"
exists, the read of the consolidated blob rejects, yet `loadUserBadges`
returns `[]`, not the most recent cache entry — the catch block never
consults the cache.  It also overwrites the stale entry with `[]`. -/
theorem load_failure_ignores_stale_cache_counterexample :
    staleCache.entries "42" = some [gamingBadge] ∧
      cacheFresh staleCache "42" (CACHE_DURATION + 2) = false ∧
      (loadUserBadges getGlobalFault emptyStore staleCache "42"
        (CACHE_DURATION + 2)).badges = [] ∧
      [gamingBadge] ≠ ([] : List Badge) ∧
      (loadUserBadges getGlobalFault emptyStore staleCache "42"
        (CACHE_DURATION + 2)).cache.entries "42" = some [] := by
  refine ⟨by decide, by decide, ?_, by decide, ?_⟩
  · unfold loadUserBadges
    simp [getGlobalFault, (by decide :
      cacheFresh staleCache "42" (CACHE_DURATION + 2) = false)]
  · unfold loadUserBadges
    simp [getGlobalFault, (by decide :
      cacheFresh staleCache "42" (CACHE_DURATION + 2) = false),
      put_entries_same]

/-- C2 amended: when the cache entry is absent or stale and any DataStore
operation on the executed path of `loadUserBadges(id)` rejects — the
consolidated-blob read; or, with an empty/absent consolidated entry, the
legacy read; or, with non-empty legacy data, the consolidated write or the
legacy delete — the call returns the empty list (regardless of any stale
cache entry), overwrites the cache entry for `id` with `([], now)`, and
raises nothing to the caller (the model's load is total). -/
theorem load_failure_returns_empty (f : Faults) (ds : DataStore) (c : Cache)
    (id : String) (now : Nat) (hmiss : cacheFresh c id now = false)
    (hfault : f.getGlobalFails = true ∨
      ((ds.global id).getD [] = [] ∧ (f.getLegacyFails = true ∨
        (∃ l, ds.legacy id = some l ∧ l ≠ [] ∧
          (f.setGlobalFails = true ∨ f.delLegacyFails = true))))) :
    (loadUserBadges f ds c id now).badges = [] ∧
      (loadUserBadges f ds c id now).cache.entries id = some [] ∧
      (loadUserBadges f ds c id now).cache.stamps id = some now := by
  unfold loadUserBadges
  simp only [hmiss, Bool.false_eq_true, if_false]
  by_cases h0 : f.getGlobalFails
  · simp [h0, put_entries_same, put_stamps_same]
  · simp only [h0, Bool.false_eq_true, if_false]
    rcases hfault with h | ⟨hg, hrest⟩
    · exact absurd h h0
    · have hg' : ((ds.global id).getD []).isEmpty = true := by simp [hg]
      simp only [hg', if_true]
      by_cases h1 : f.getLegacyFails
      · simp [h1, put_entries_same, put_stamps_same]
      · simp only [h1, Bool.false_eq_true, if_false]
        rcases hrest with h | ⟨l, hl, hlne, hsd⟩
        · exact absurd h h1
        · rw [hl]
          have hle : l.isEmpty = false := by
            cases l with
            | nil => exact absurd rfl hlne
            | cons a t => rfl
          simp only [hle, Bool.false_eq_true, if_false]
          by_cases h2 : f.setGlobalFails
          · simp [h2, put_entries_same, put_stamps_same]
          · rcases hsd with h | h
            · exact absurd h h2
            · simp [h2, h, put_entries_same, put_stamps_same]

/-- Witness for the amended C2: stale cache for "42", rejecting blob read
at time `CACHE_DURATION + 2`. -/
theorem load_failure_returns_empty_witness :
    (loadUserBadges getGlobalFault emptyStore staleCache "42"
        (CACHE_DURATION + 2)).badges = [] ∧
      (loadUserBadges getGlobalFault emptyStore staleCache "42"
        (CACHE_DURATION + 2)).cache.entries "42" = some [] ∧
      (loadUserBadges getGlobalFault emptyStore staleCache "42"
        (CACHE_DURATION + 2)).cache.stamps "42" = some (CACHE_DURATION + 2) :=
  load_failure_returns_empty getGlobalFault emptyStore staleCache "42"
    (CACHE_DURATION + 2) (by decide) (Or.inl rfl)

/-- Fixture store with legacy data for "42" and an empty consolidated
blob: the state the migration path starts from. -/
def legacyStore : DataStore := ⟨BadgeMap.empty, setKey BadgeMap.empty "42" [gamingBadge]⟩

/-- Faults record where only the legacy-key delete rejects. -/
def delLegacyFault : Faults := ⟨false, false, false, true⟩

/-- C3 counterexample: legacy data for "42", empty consolidated blob, the
consolidated write succeeds and then the legacy delete rejects.  The
rejection lands in the catch block, so `loadUserBadges` returns `[]`, not
the migrated records — the claim's "does not fail and does not return
empty" is false — even though the consolidated blob does retain the
migrated entry. -/
theorem migration_delete_failure_counterexample :
    (loadUserBadges delLegacyFault legacyStore Cache.empty "42" 5).badges = [] ∧
      [gamingBadge] ≠ ([] : List Badge) ∧
      (loadUserBadges delLegacyFault legacyStore Cache.empty "42" 5).store.global "42"
        = some [gamingBadge] := by
  refine ⟨?_, by decide, ?_⟩ <;>
    simp [loadUserBadges, delLegacyFault, legacyStore, cacheFresh, Cache.empty,
      BadgeMap.empty, setKey_same, setKey]

/-- C3 amended: with a non-empty legacy record for `id`, no consolidated
entry, and only the legacy-key delete rejecting, `loadUserBadges(id)`
leaves the migrated entry in the consolidated blob and the legacy key in
place, but returns the empty list (and caches `([], now)`) rather than the
migrated records; no exception reaches the caller. -/
theorem migration_delete_failure_keeps_data (ds : DataStore) (c : Cache)
    (id : String) (now : Nat) (l : List Badge)
    (hmiss : cacheFresh c id now = false)
    (hg : (ds.global id).getD [] = [])
    (hl : ds.legacy id = some l) (hlne : l ≠ []) :
    (loadUserBadges delLegacyFault ds c id now).store.global id = some l ∧
      (loadUserBadges delLegacyFault ds c id now).store.legacy id = some l ∧
      (loadUserBadges delLegacyFault ds c id now).badges = [] ∧
      (loadUserBadges delLegacyFault ds c id now).cache.entries id = some [] ∧
      (loadUserBadges delLegacyFault ds c id now).cache.stamps id = some now := by
  have hg' : ((ds.global id).getD []).isEmpty = true := by simp [hg]
  have hle : l.isEmpty = false := by
    cases l with
    | nil => exact absurd rfl hlne
    | cons a t => rfl
  unfold loadUserBadges
  simp [hmiss, hg', hl, hle, delLegacyFault, setKey_same,
    put_entries_same, put_stamps_same]

/-- Witness for the amended C3 at the fixture legacy store. -/
theorem migration_delete_failure_keeps_data_witness :
    (loadUserBadges delLegacyFault legacyStore Cache.empty "42" 5).store.global "42"
        = some [gamingBadge] ∧
      (loadUserBadges delLegacyFault legacyStore Cache.empty "42" 5).store.legacy "42"
        = some [gamingBadge] ∧
      (loadUserBadges delLegacyFault legacyStore Cache.empty "42" 5).badges = [] ∧
      (loadUserBadges delLegacyFault legacyStore Cache.empty "42" 5).cache.entries "42"
        = some [] ∧
      (loadUserBadges delLegacyFault legacyStore Cache.empty "42" 5).cache.stamps "42"
        = some 5 :=
  migration_delete_failure_keeps_data legacyStore Cache.empty "42" 5
    [gamingBadge] (by decide) (by decide) (by decide) (by decide)

/-- C5: the migration step of `loadUserBadges` is idempotent — running it
twice from the same initial store yields the same consolidated mapping as
running it once — and after a run that found legacy data (empty/absent
consolidated entry, non-empty legacy record) the legacy key for the id is
absent, after the first run and still after the second. -/
theorem migration_idempotent (ds : DataStore) (id : String) :
    (∀ k, (migrate (migrate ds id).1 id).1.global k = (migrate ds id).1.global k) ∧
      ((ds.global id).getD [] = [] → ∀ l, ds.legacy id = some l → l ≠ [] →
        (migrate ds id).1.legacy id = none ∧
          (migrate (migrate ds id).1 id).1.legacy id = none) := by
  by_cases hg : ((ds.global id).getD []).isEmpty
  · cases hl : ds.legacy id with
    | none =>
      constructor
      · intro k
        simp [migrate, hg, hl]
      · intro _ l hl' _
        exact absurd hl' (by simp)
    | some old =>
      by_cases ho : old.isEmpty
      · constructor
        · intro k
          simp [migrate, hg, hl, ho]
        · intro _ l hl' hlne
          injection hl' with hol
          subst hol
          cases old with
          | nil => exact absurd rfl hlne
          | cons a t => simp at ho
      · have hfirst : migrate ds id =
            ({ global := setKey ds.global id old, legacy := delKey ds.legacy id },
              old) := by
          simp [migrate, hg, hl, ho]
        have hsecond : migrate (migrate ds id).1 id = ((migrate ds id).1, old) := by
          rw [hfirst]
          unfold migrate
          simp [setKey_same, ho]
        constructor
        · intro k
          rw [hsecond]
        · intro _ l _ _
          rw [hsecond, hfirst]
          simp [delKey_same]
  · have hfirst : migrate ds id = (ds, (ds.global id).getD []) := by
      simp [migrate, hg]
    constructor
    · intro k
      rw [hfirst]
      simp [migrate, hg]
    · intro hg0
      rw [hg0] at hg
      simp at hg

/-- Witness for C5 at the fixture legacy store (legacy data for "42",
empty consolidated blob). -/
theorem migration_idempotent_witness :
    (migrate (migrate legacyStore "42").1 "42").1.global "42"
        = (migrate legacyStore "42").1.global "42" ∧
      (migrate legacyStore "42").1.legacy "42" = none ∧
      (migrate (migrate legacyStore "42").1 "42").1.legacy "42" = none :=
  ⟨(migration_idempotent legacyStore "42").1 "42",
    ((migration_idempotent legacyStore "42").2 (by decide) [gamingBadge]
      (by decide) (by decide)).1,
    ((migration_idempotent legacyStore "42").2 (by decide) [gamingBadge]
      (by decide) (by decide)).2⟩

/-- C6: a successful `saveUserBadges(id, R)` and the migration step of
`loadUserBadges(id)` both leave the consolidated mapping's entry for any
other id unchanged. -/
theorem save_and_migrate_frame (f : Faults) (ds : DataStore) (c : Cache)
    (id id' : String) (R : List Badge) (now : Nat) (ds' : DataStore)
    (c' : Cache) (hne : id' ≠ id) :
    (saveUserBadges f ds c id R now = some (ds', c') →
        ds'.global id' = ds.global id') ∧
      (migrate ds id).1.global id' = ds.global id' := by
  constructor
  · intro hsave
    unfold saveUserBadges at hsave
    by_cases h1 : f.getGlobalFails
    · simp [h1] at hsave
    · by_cases h2 : f.setGlobalFails
      · simp [h1, h2] at hsave
      · simp only [h1, h2, Bool.false_eq_true, if_false, Option.some.injEq,
          Prod.mk.injEq] at hsave
        rw [← hsave.1]
        exact setKey_other ds.global id id' R hne
  · unfold migrate
    by_cases hg : ((ds.global id).getD []).isEmpty
    · cases hl : ds.legacy id with
      | none => simp [hg, hl]
      | some old =>
        by_cases ho : old.isEmpty
        · simp [hg, hl, ho]
        · simp [hg, hl, ho, setKey_other ds.global id id' old hne]
    · simp [hg]

/-- Witness for C6: saving and migrating for "42" leave the entry for "7"
untouched. -/
theorem save_and_migrate_frame_witness :
    (⟨setKey BadgeMap.empty "42" [gamingBadge], BadgeMap.empty⟩ : DataStore).global "7"
        = emptyStore.global "7" ∧
      (migrate emptyStore "42").1.global "7" = emptyStore.global "7" :=
  ⟨(save_and_migrate_frame noFaults emptyStore Cache.empty "42" "7"
      [gamingBadge] 1 ⟨setKey BadgeMap.empty "42" [gamingBadge], BadgeMap.empty⟩
      (Cache.empty.put "42" [gamingBadge] 1) (by decide)).1 rfl,
    (save_and_migrate_frame noFaults emptyStore Cache.empty "42" "7"
      [gamingBadge] 1 emptyStore Cache.empty (by decide)).2⟩

/-- Fixture badge of the racing writer A. -/
def badgeA : Badge := ⟨"GA", "", "https://a.png"⟩

/-- Fixture badge of the racing writer B. -/
def badgeB : Badge := ⟨"GB", "", "https://b.png"⟩

/-- C4 counterexample: the interleaving in which both saves read the
(empty) consolidated blob before either writes it back — a schedule the
unserialised `saveUserBadges` permits — ends with only B's records in the
blob; A's update is lost. -/
theorem concurrent_saves_clobber_counterexample :
    (runRace "A" "B" [badgeA] [badgeB] (RaceState.init BadgeMap.empty)
        [SaveStep.readA, SaveStep.readB, SaveStep.writeA, SaveStep.writeB]).global "A"
        = none ∧
      (runRace "A" "B" [badgeA] [badgeB] (RaceState.init BadgeMap.empty)
        [SaveStep.readA, SaveStep.readB, SaveStep.writeA, SaveStep.writeB]).global "B"
        = some [badgeB] := by
  decide

/-- C4 amended: two saves for distinct ids A and B against an initially
empty consolidated mapping leave both ids' records only when their
read-merge-write cycles do not interleave (either serialisation works);
under the interleaving in which both reads precede both writes, the first
writer's records are lost and only the last writer's remain. -/
theorem serialized_saves_preserve_both (idA idB : String) (rA rB : List Badge)
    (h : idA ≠ idB) :
    ((runRace idA idB rA rB (RaceState.init BadgeMap.empty)
        [SaveStep.readA, SaveStep.writeA, SaveStep.readB, SaveStep.writeB]).global idA
          = some rA ∧
      (runRace idA idB rA rB (RaceState.init BadgeMap.empty)
        [SaveStep.readA, SaveStep.writeA, SaveStep.readB, SaveStep.writeB]).global idB
          = some rB) ∧
      ((runRace idA idB rA rB (RaceState.init BadgeMap.empty)
        [SaveStep.readB, SaveStep.writeB, SaveStep.readA, SaveStep.writeA]).global idA
          = some rA ∧
      (runRace idA idB rA rB (RaceState.init BadgeMap.empty)
        [SaveStep.readB, SaveStep.writeB, SaveStep.readA, SaveStep.writeA]).global idB
          = some rB) ∧
      ((runRace idA idB rA rB (RaceState.init BadgeMap.empty)
        [SaveStep.readA, SaveStep.readB, SaveStep.writeA, SaveStep.writeB]).global idA
          = none ∧
      (runRace idA idB rA rB (RaceState.init BadgeMap.empty)
        [SaveStep.readA, SaveStep.readB, SaveStep.writeA, SaveStep.writeB]).global idB
          = some rB) := by
  have h' : idB ≠ idA := Ne.symm h
  refine ⟨⟨?_, ?_⟩, ⟨?_, ?_⟩, ⟨?_, ?_⟩⟩ <;>
    simp [runRace, raceStep, RaceState.init, setKey, BadgeMap.empty, h, h']

/-- Witness for the amended C4 at the fixture ids and badges. -/
theorem serialized_saves_preserve_both_witness :
    ((runRace "A" "B" [badgeA] [badgeB] (RaceState.init BadgeMap.empty)
        [SaveStep.readA, SaveStep.writeA, SaveStep.readB, SaveStep.writeB]).global "A"
          = some [badgeA] ∧
      (runRace "A" "B" [badgeA] [badgeB] (RaceState.init BadgeMap.empty)
        [SaveStep.readA, SaveStep.writeA, SaveStep.readB, SaveStep.writeB]).global "B"
          = some [badgeB]) ∧
      ((runRace "A" "B" [badgeA] [badgeB] (RaceState.init BadgeMap.empty)
        [SaveStep.readB, SaveStep.writeB, SaveStep.readA, SaveStep.writeA]).global "A"
          = some [badgeA] ∧
      (runRace "A" "B" [badgeA] [badgeB] (RaceState.init BadgeMap.empty)
        [SaveStep.readB, SaveStep.writeB, SaveStep.readA, SaveStep.writeA]).global "B"
          = some [badgeB]) ∧
      ((runRace "A" "B" [badgeA] [badgeB] (RaceState.init BadgeMap.empty)
        [SaveStep.readA, SaveStep.readB, SaveStep.writeA, SaveStep.writeB]).global "A"
          = none ∧
      (runRace "A" "B" [badgeA] [badgeB] (RaceState.init BadgeMap.empty)
        [SaveStep.readA, SaveStep.readB, SaveStep.writeA, SaveStep.writeB]).global "B"
          = some [badgeB]) :=
  serialized_saves_preserve_both "A" "B" [badgeA] [badgeB] (by decide)

/-- C8: in the display pipeline for the current user, a record with empty
name contributes no descriptor whatever its icon fields; a record with
non-empty name but empty emoji and empty url contributes no descriptor;
and a record with non-empty name, non-empty url and non-empty emoji
contributes a descriptor whose image is the url, not the emoji-derived
URL. -/
theorem display_filter_and_icon_priority (uid : String) (pre post : List Badge)
    (b : Badge) :
    (b.name = "" →
        getBadges (pre ++ b :: post) uid uid = getBadges (pre ++ post) uid uid) ∧
      (b.name ≠ "" → b.emoji = "" → b.url = "" →
        getBadges (pre ++ b :: post) uid uid = getBadges (pre ++ post) uid uid) ∧
      (b.name ≠ "" → b.url ≠ "" → b.emoji ≠ "" →
        getBadges (pre ++ b :: post) uid uid =
          getBadges pre uid uid ++
            { description := b.name, image := b.url } :: getBadges post uid uid) := by
  refine ⟨fun h1 => ?_, fun h1 h2 h3 => ?_, fun h1 h2 h3 => ?_⟩
  · have hb : isDisplayable b = false := by simp [isDisplayable, h1]
    simp [getBadges, List.filter_append, hb]
  · have hb : isDisplayable b = false := by simp [isDisplayable, h2, h3]
    simp [getBadges, List.filter_append, hb]
  · have hb : isDisplayable b = true := by simp [isDisplayable, h1, h2]
    have hd : displayBadge b = { description := b.name, image := b.url } := by
      simp [displayBadge, h2]
    simp [getBadges, List.filter_append, hb, hd]

/-- Fixture badge with an empty name but a configured icon. -/
def namelessBadge : Badge := ⟨"", "🎮", ""⟩

/-- Fixture badge with a name but no icon source at all. -/
def bareBadge : Badge := ⟨"X", "", ""⟩

/-- Fixture badge with name, emoji and image URL all set. -/
def fullBadge : Badge := ⟨"X", "🎮", "https://a/b.png"⟩

/-- Witness for C8 at concrete badges and user "u". -/
theorem display_filter_and_icon_priority_witness :
    getBadges ([] ++ namelessBadge :: []) "u" "u" = getBadges ([] ++ []) "u" "u" ∧
      getBadges ([] ++ bareBadge :: []) "u" "u" = getBadges ([] ++ []) "u" "u" ∧
      getBadges ([] ++ fullBadge :: []) "u" "u" =
        getBadges [] "u" "u" ++
          { description := "X", image := "https://a/b.png" } :: getBadges [] "u" "u" :=
  ⟨(display_filter_and_icon_priority "u" [] [] namelessBadge).1 rfl,
    (display_filter_and_icon_priority "u" [] [] bareBadge).2.1
      (by decide) rfl rfl,
    (display_filter_and_icon_priority "u" [] [] fullBadge).2.2
      (by decide) (by decide) (by decide)⟩

/-- C10: for any profile other than the current user's, the registered
display callback's `shouldShow` is false and its `getBadges` returns `[]`,
whatever badges are configured. -/
theorem other_users_hidden (userId currentUserId : String) (bs : List Badge)
    (h : userId ≠ currentUserId) :
    shouldShow userId currentUserId = false ∧
      getBadges bs userId currentUserId = [] := by
  constructor
  · simp [shouldShow, h]
  · simp [getBadges, h]

/-- Witness for C10: user "1" viewing while the current user is "2". -/
theorem other_users_hidden_witness :
    shouldShow "1" "2" = false ∧ getBadges [gamingBadge] "1" "2" = [] :=
  other_users_hidden "1" "2" [gamingBadge] (by decide)

end CustomBadges
